import Mathlib

/-!
Verification development for the neuralagent repository.

The repository is a deterministic lexical-scoring pipeline written in Python.
We give a shallow embedding of the core algorithmic functions:

* `chat_assessment.py` (identical in both module copies for everything used
  here): keyword presence counting (`count_pattern_matches`), and the two
  aggregators `generate_personality_profile` / `generate_problem_solving_profile`.
* `cognitive_profiler.py`: the hybrid blender `create_hybrid_profile` and its
  helpers (`_blend_cognitive_traits`, `_identify_hybrid_strengths`,
  `_identify_potential_conflicts`).  The packaged copy
  `src/src/cognitive_profiling/cognitive_profiler.py` implements the whole
  blend; the top-level copy `src/cognitive_profiler.py` stops after
  `_blend_cognitive_traits` (the remaining helper methods do not exist in that
  file), which we model through an explicit attribute-lookup table.

Python floats are modelled as rationals (`ℚ`); every arithmetic operation the
embedded code performs (add, mul, div by a positive count, comparison, `abs`)
is exact on the concrete values appearing in the claims, so no rounding issue
is hidden by this choice.  Python exceptions are modelled with `Except`:
a raised `ValueError`/`AttributeError` is an `Except.error`, and a function
that can only end in `return` or `raise` is a total Lean function into
`Except`, which also captures that no partial result escapes on failure.
Python `None` results are `Option.none`.  `list(set(xs))` is modelled as
`xs.dedup`: CPython's set iteration order is unspecified, and every property
stated below is order-insensitive (membership, count, `Nodup`).
-/

namespace NeuralAgent

/-! ## Feature extraction: `ChatBasedAssessment.count_pattern_matches`

`count_pattern_matches` lower-cases the text and counts how many of the
patterns occur in it as substrings (`if pattern in text_lower: count += 1`),
i.e. each keyword contributes at most 1.  Substring containment on Python
strings is containment of the character sequence. -/

/-- `needle` occurs somewhere in `hay` (Python `needle in hay` on strings). -/
def hasSubstr (needle : List Char) : List Char → Bool
  | [] => needle.isPrefixOf []
  | c :: t => needle.isPrefixOf (c :: t) || hasSubstr needle t

/-- Python `str.lower()` on the character sequence; the keyword lists and the
texts of the claims are ASCII, where it agrees with `Char.toLower` per
character. -/
def pyLower (cs : List Char) : List Char := cs.map Char.toLower

/-- `ChatBasedAssessment.count_pattern_matches` (chat_assessment.py, both
copies): presence count of the patterns in the lower-cased text. -/
def count_pattern_matches (text : String) (patterns : List String) : Nat :=
  (patterns.filter (fun p => hasSubstr p.data (pyLower text.data))).length

/-- `self.analytical_patterns` from `ChatBasedAssessment.__init__`. -/
def analytical_patterns : List String :=
  ["first", "second", "third", "next", "then", "therefore", "because",
   "analyze", "break down", "step by step", "systematic", "logical",
   "evidence", "data", "facts", "research", "study", "examine",
   "consider", "evaluate", "assess", "measure", "compare"]

/-- `self.intuitive_patterns` from `ChatBasedAssessment.__init__`. -/
def intuitive_patterns : List String :=
  ["feel", "sense", "instinct", "gut", "intuition", "seems like",
   "appears", "impression", "hunch", "vibe", "energy", "flow",
   "natural", "organic", "spontaneous", "instinctively", "naturally"]

/-- `self.creative_patterns` from `ChatBasedAssessment.__init__`. -/
def creative_patterns : List String :=
  ["imagine", "what if", "brainstorm", "creative", "innovative",
   "outside the box", "alternative", "unconventional", "novel",
   "original", "unique", "artistic", "inspiration", "envision"]

/-- `self.systematic_patterns` from `ChatBasedAssessment.__init__`. -/
def systematic_patterns : List String :=
  ["process", "procedure", "method", "approach", "framework",
   "structure", "organize", "plan", "schedule", "timeline",
   "phases", "stages", "sequence", "order", "prioritize"]

/-! ## Response aggregation: `generate_personality_profile` /
`generate_problem_solving_profile`

One per-response analysis dict produced by `analyze_response` /
`analyze_problem_solving_response`.  The aggregators read the fields below
through `a.get(key, default)`; we record the field values with the `get`
defaults already applied (an absent key behaves as the default), indicator
counts being the natural numbers produced by the counting functions.  Fields
of the dict that no aggregator reads (timestamps, context, ...) are omitted. -/
structure Analysis where
  analytical_indicators : Nat
  intuitive_indicators : Nat
  creative_indicators : Nat
  systematic_indicators : Nat
  emotion_words : Nat
  word_count : Nat
  question_count : Nat
  /-- `len(a.get('text', ''))` as read by `assess_decision_speed`. -/
  text_length : Nat
  /-- `a.get('complexity_score', 50)`, a Flesch reading-ease value. -/
  complexity_score : ℚ
  certainty_level : String
  solution_orientation : Nat
  process_orientation : Nat
  stakeholder_awareness : Nat
  risk_awareness : Nat
  collaboration_indicators : Nat
  implementation_focus : Nat
deriving Repr, DecidableEq

/-- An all-zero analysis record, the value every `a.get(key, default)` read
yields on an empty dict (`certainty_level` reads default to a non-'high'
value; `complexity_score` to 50). -/
def Analysis.zero : Analysis :=
  { analytical_indicators := 0, intuitive_indicators := 0,
    creative_indicators := 0, systematic_indicators := 0,
    emotion_words := 0, word_count := 0, question_count := 0,
    text_length := 0, complexity_score := 50, certainty_level := "",
    solution_orientation := 0, process_orientation := 0,
    stakeholder_awareness := 0, risk_awareness := 0,
    collaboration_indicators := 0, implementation_focus := 0 }

/-- Concrete analysis with an exact three-way analytical/intuitive/creative
tie (all indicator means 1). -/
def tieAnalysis : Analysis := { Analysis.zero with analytical_indicators := 1, intuitive_indicators := 1, creative_indicators := 1 }

/-- Concrete analysis with intuitive and creative indicators tied at 2 and
analytical indicator 0. -/
def icTieAnalysis : Analysis := { Analysis.zero with intuitive_indicators := 2, creative_indicators := 2 }

/-- Result record of `generate_personality_profile` (timestamp omitted). -/
structure PersonalityProfile where
  primary_thinking_style : String
  analytical_tendency : ℚ
  intuitive_tendency : ℚ
  creative_tendency : ℚ
  systematic_tendency : ℚ
  certainty_level : ℚ
  emotional_expression : ℚ
  communication_style : String
  response_patterns : List String
  avg_response_length : ℚ
  question_frequency : ℚ
deriving Repr, DecidableEq

/-- `determine_communication_style` (chat_assessment.py). -/
def determine_communication_style (analyses : List Analysis) : String :=
  let avg_length : ℚ := ((analyses.map (fun a => (a.word_count : ℚ))).sum) / analyses.length
  let avg_questions : ℚ := ((analyses.map (fun a => (a.question_count : ℚ))).sum) / analyses.length
  if avg_length > 75 ∧ avg_questions > 1 then "detailed_inquisitive"
  else if avg_length > 75 then "detailed_explanatory"
  else if avg_questions > 1 then "concise_inquisitive"
  else "concise_direct"

/-- `identify_response_patterns` (chat_assessment.py). -/
def identify_response_patterns (analyses : List Analysis) : List String :=
  let p₁ := if analyses.all (fun a => a.analytical_indicators > 0)
    then ["consistently_analytical"] else []
  let p₂ := if ((analyses.map (·.emotion_words)).sum : ℚ) > analyses.length
    then ["emotionally_aware"] else []
  let p₃ := if ((analyses.map (·.systematic_indicators)).sum : ℚ) > analyses.length
    then ["systematic_thinker"] else []
  let p₄ := if ((analyses.map (·.creative_indicators)).sum : ℚ) > (analyses.length : ℚ) * (1/2)
    then ["creative_thinker"] else []
  p₁ ++ p₂ ++ p₃ ++ p₄

/-- The primary-thinking-style selection of `generate_personality_profile`:
`max_score = max(avg_analytical, avg_intuitive, avg_creative)` followed by
equality tests against the three averages in order, with a final (dead)
`'balanced'` arm. -/
def pick_primary_style (avg_analytical avg_intuitive avg_creative : ℚ) : String :=
  let max_score := max (max avg_analytical avg_intuitive) avg_creative
  if max_score = avg_analytical then "analytical"
  else if max_score = avg_intuitive then "intuitive"
  else if max_score = avg_creative then "creative"
  else "balanced"

/-- `generate_personality_profile` (chat_assessment.py, both copies).  The
input is `self.personality_responses.values()`: one list of analyses per
trait stage; the function pools them (`all_analyses`).  Returns `none`
(Python `None`) when no analyses were collected. -/
def generate_personality_profile (responses : List (List Analysis)) :
    Option PersonalityProfile :=
  let all_analyses := responses.flatten
  if all_analyses.isEmpty then none
  else
    let num_responses : ℚ := all_analyses.length
    let avg_analytical := ((all_analyses.map (·.analytical_indicators)).sum : ℚ) / num_responses
    let avg_intuitive := ((all_analyses.map (·.intuitive_indicators)).sum : ℚ) / num_responses
    let avg_creative := ((all_analyses.map (·.creative_indicators)).sum : ℚ) / num_responses
    let avg_systematic := ((all_analyses.map (·.systematic_indicators)).sum : ℚ) / num_responses
    some
      { primary_thinking_style := pick_primary_style avg_analytical avg_intuitive avg_creative
        analytical_tendency := avg_analytical
        intuitive_tendency := avg_intuitive
        creative_tendency := avg_creative
        systematic_tendency := avg_systematic
        certainty_level :=
          ((all_analyses.filter (fun a => a.certainty_level = "high")).length : ℚ) / num_responses
        emotional_expression := ((all_analyses.map (·.emotion_words)).sum : ℚ) / num_responses
        communication_style := determine_communication_style all_analyses
        response_patterns := identify_response_patterns all_analyses
        avg_response_length := ((all_analyses.map (·.word_count)).sum : ℚ) / num_responses
        question_frequency := ((all_analyses.map (·.question_count)).sum : ℚ) / num_responses }

/-- Result record of `generate_problem_solving_profile` (timestamp omitted). -/
structure ProblemSolvingProfile where
  problem_solving_style : String
  stakeholder_orientation : String
  risk_assessment : String
  collaboration_tendency : String
  implementation_focus : String
  decision_making_speed : String
  complexity_comfort : String
deriving Repr, DecidableEq

/-- `assess_decision_speed` (chat_assessment.py). -/
def assess_decision_speed (analyses : List Analysis) : String :=
  let avg_length : ℚ := ((analyses.map (fun a => (a.text_length : ℚ))).sum) / analyses.length
  if avg_length > 300 then "deliberate" else "quick"

/-- `assess_complexity_comfort` (chat_assessment.py). -/
def assess_complexity_comfort (analyses : List Analysis) : String :=
  let avg_complexity := ((analyses.map (·.complexity_score)).sum) / (analyses.length : ℚ)
  if avg_complexity < 50 then "high"
  else if avg_complexity < 70 then "medium"
  else "low"

/-- The three-level threshold classifier used for the four orientation fields
of `generate_problem_solving_profile`. -/
def threeLevel (x : ℚ) : String :=
  if x > 3/2 then "high" else if x > 1/2 then "medium" else "low"

/-- `generate_problem_solving_profile` (chat_assessment.py, both copies).
The input is, per scenario, the list of analysis dicts of the user responses
recorded for it (messages without an `'analysis'` key contribute nothing and
are not represented).  Returns `none` when no analyses were collected. -/
def generate_problem_solving_profile (responses : List (List Analysis)) :
    Option ProblemSolvingProfile :=
  let all_analyses := responses.flatten
  if all_analyses.isEmpty then none
  else
    let num_analyses : ℚ := all_analyses.length
    let solution_focus := ((all_analyses.map (·.solution_orientation)).sum : ℚ) / num_analyses
    let process_focus := ((all_analyses.map (·.process_orientation)).sum : ℚ) / num_analyses
    some
      { problem_solving_style :=
          if solution_focus > process_focus then "solution-focused" else "process-focused"
        stakeholder_orientation :=
          threeLevel (((all_analyses.map (·.stakeholder_awareness)).sum : ℚ) / num_analyses)
        risk_assessment :=
          threeLevel (((all_analyses.map (·.risk_awareness)).sum : ℚ) / num_analyses)
        collaboration_tendency :=
          threeLevel (((all_analyses.map (·.collaboration_indicators)).sum : ℚ) / num_analyses)
        implementation_focus :=
          threeLevel (((all_analyses.map (·.implementation_focus)).sum : ℚ) / num_analyses)
        decision_making_speed := assess_decision_speed all_analyses
        complexity_comfort := assess_complexity_comfort all_analyses }

/-! ## Hybrid blending: `CognitiveProfileGenerator.create_hybrid_profile`

Source profiles are untyped nested dicts; the blender reads them only through
`p.get('cognitive_traits', {}).get(trait, default)`,
`p.get('decision_making_profile', {}).get(trait, 'medium')`,
`p.get('strengths', [])` and `p.get('profile_id')`.  We model exactly those
access paths: an `Option` field is `none` when the key is absent (a missing
inner dict behaves like a dict with every key absent, so it is represented by
the all-`none` record). -/

/-- The `cognitive_traits` sub-dict of a source profile, restricted to the
keys the blender reads. -/
structure CognitiveTraits where
  analytical_tendency : Option ℚ
  intuitive_tendency : Option ℚ
  creative_tendency : Option ℚ
  systematic_tendency : Option ℚ
  decision_confidence : Option ℚ
  cognitive_flexibility : Option ℚ
  primary_thinking_style : Option String
  problem_solving_approach : Option String
  complexity_comfort : Option String
  stakeholder_awareness : Option String
  risk_assessment_style : Option String
deriving Repr, DecidableEq

/-- Empty `cognitive_traits` dict. -/
def CognitiveTraits.empty : CognitiveTraits :=
  { analytical_tendency := none, intuitive_tendency := none,
    creative_tendency := none, systematic_tendency := none,
    decision_confidence := none, cognitive_flexibility := none,
    primary_thinking_style := none, problem_solving_approach := none,
    complexity_comfort := none, stakeholder_awareness := none,
    risk_assessment_style := none }

/-- The `decision_making_profile` sub-dict, restricted to the keys read by
`_identify_potential_conflicts`. -/
structure DecisionMakingProfile where
  decision_speed : Option String
  risk_tolerance : Option String
deriving Repr, DecidableEq

/-- A source comprehensive profile as seen by the blender. -/
structure SourceProfile where
  profile_id : Option String
  cognitive_traits : CognitiveTraits
  decision_making_profile : DecisionMakingProfile
  strengths : List String
deriving Repr, DecidableEq

/-- A profile dict with none of the read keys present. -/
def SourceProfile.empty : SourceProfile :=
  { profile_id := none, cognitive_traits := CognitiveTraits.empty,
    decision_making_profile := { decision_speed := none, risk_tolerance := none },
    strengths := [] }

/-- Example source profile with `analytical_tendency = 0.9` and
`primary_thinking_style = "analytical"` (the P1 of the spec's test
scenarios). -/
def profileP1 : SourceProfile := { SourceProfile.empty with cognitive_traits := { CognitiveTraits.empty with analytical_tendency := some (9/10), primary_thinking_style := some "analytical" } }

/-- Example source profile with `analytical_tendency = 0.3` and
`primary_thinking_style = "creative"` (the P2 of the spec's test
scenarios). -/
def profileP2 : SourceProfile := { SourceProfile.empty with cognitive_traits := { CognitiveTraits.empty with analytical_tendency := some (3/10), primary_thinking_style := some "creative" } }

/-- Example source profile whose decision speed is "quick". -/
def quickProfile : SourceProfile := { SourceProfile.empty with decision_making_profile := { decision_speed := some "quick", risk_tolerance := none } }

/-- Example source profile whose decision speed is "deliberate". -/
def deliberateProfile : SourceProfile := { SourceProfile.empty with decision_making_profile := { decision_speed := some "deliberate", risk_tolerance := none } }

/-- Example source profile with strengths `systematic_analysis` and
`pattern_recognition`. -/
def strongAnalyst : SourceProfile := { SourceProfile.empty with strengths := ["systematic_analysis", "pattern_recognition"] }

/-- Example source profile with the single strength `systematic_analysis`. -/
def strongAnalyst2 : SourceProfile := { SourceProfile.empty with strengths := ["systematic_analysis"] }

/-- Example source profile with the single strength `innovative_thinking`. -/
def strongCreative : SourceProfile := { SourceProfile.empty with strengths := ["innovative_thinking"] }

/-- Python `max(iterable)` on a list of floats (only ever called on non-empty
lists in the embedded code; the `[]` case is junk). -/
def listMax : List ℚ → ℚ
  | [] => 0
  | x :: xs => xs.foldl max x

/-- `weights.index(max(weights))`: first index holding the maximal weight. -/
def dominantIndex (weights : List ℚ) : Nat :=
  weights.indexOf (listMax weights)

/-- The blended `cognitive_traits` dict of a hybrid profile: six weighted
numeric traits and five categorical traits copied from the dominant source. -/
structure BlendedTraits where
  analytical_tendency : ℚ
  intuitive_tendency : ℚ
  creative_tendency : ℚ
  systematic_tendency : ℚ
  decision_confidence : ℚ
  cognitive_flexibility : ℚ
  primary_thinking_style : String
  problem_solving_approach : String
  complexity_comfort : String
  stakeholder_awareness : String
  risk_assessment_style : String
deriving Repr, DecidableEq

/-- One numeric trait of `_blend_cognitive_traits`:
`sum(profile.get('cognitive_traits', {}).get(trait, 0.5) * weight for ...)`. -/
def blendNumeric (profiles : List SourceProfile) (weights : List ℚ)
    (trait : CognitiveTraits → Option ℚ) : ℚ :=
  ((profiles.zip weights).map
    (fun pw => (trait pw.1.cognitive_traits).getD (1/2) * pw.2)).sum

/-- One categorical trait of `_blend_cognitive_traits`:
`profiles[dominant_profile_index].get('cognitive_traits', {}).get(trait, 'medium')`. -/
def blendCategorical (profiles : List SourceProfile) (weights : List ℚ)
    (trait : CognitiveTraits → Option String) : String :=
  (trait ((profiles.getD (dominantIndex weights) SourceProfile.empty).cognitive_traits)).getD
    "medium"

/-- `_blend_cognitive_traits` (cognitive_profiler.py, identical in both
copies). -/
def blend_cognitive_traits (profiles : List SourceProfile) (weights : List ℚ) :
    BlendedTraits :=
  { analytical_tendency := blendNumeric profiles weights (·.analytical_tendency)
    intuitive_tendency := blendNumeric profiles weights (·.intuitive_tendency)
    creative_tendency := blendNumeric profiles weights (·.creative_tendency)
    systematic_tendency := blendNumeric profiles weights (·.systematic_tendency)
    decision_confidence := blendNumeric profiles weights (·.decision_confidence)
    cognitive_flexibility := blendNumeric profiles weights (·.cognitive_flexibility)
    primary_thinking_style := blendCategorical profiles weights (·.primary_thinking_style)
    problem_solving_approach := blendCategorical profiles weights (·.problem_solving_approach)
    complexity_comfort := blendCategorical profiles weights (·.complexity_comfort)
    stakeholder_awareness := blendCategorical profiles weights (·.stakeholder_awareness)
    risk_assessment_style := blendCategorical profiles weights (·.risk_assessment_style) }

/-- `_identify_hybrid_strengths` (packaged copy).  Python iterates over
`strength_counts.items()` — insertion order, i.e. first-occurrence order of
`all_strengths`, modelled by `all_strengths.dedup` — and finally returns
`list(set(...))`, modelled by `.dedup` (set contents; iteration order of a
CPython set is unspecified and no property below depends on it). -/
def identify_hybrid_strengths (profiles : List SourceProfile) : List String :=
  let all_strengths := (profiles.map (·.strengths)).flatten
  let renamed := all_strengths.dedup.map
    (fun s => if all_strengths.count s > 1 then "enhanced_" ++ s else s)
  let with_versatility :=
    if profiles.length > 2 then renamed ++ ["cognitive_versatility"] else renamed
  (with_versatility ++ ["adaptive_thinking"]).dedup

/-- `_identify_potential_conflicts` (packaged copy).  The `weights` parameter
of the Python method is unused by its body and omitted here. -/
def identify_potential_conflicts (profiles : List SourceProfile) : List String :=
  let thinking_styles :=
    profiles.map (fun p => p.cognitive_traits.primary_thinking_style.getD "balanced")
  let c₁ := if thinking_styles.dedup.length > 1 then ["conflicting_thinking_styles"] else []
  let decision_speeds :=
    profiles.map (fun p => p.decision_making_profile.decision_speed.getD "medium")
  let c₂ := if "quick" ∈ decision_speeds ∧ "deliberate" ∈ decision_speeds
    then ["decision_speed_tension"] else []
  let risk_tolerances :=
    profiles.map (fun p => p.decision_making_profile.risk_tolerance.getD "medium")
  let c₃ := if "high" ∈ risk_tolerances ∧ "low" ∈ risk_tolerances
    then ["risk_tolerance_conflict"] else []
  let analytical_scores :=
    profiles.map (fun p => p.cognitive_traits.analytical_tendency.getD (1/2))
  let intuitive_scores :=
    profiles.map (fun p => p.cognitive_traits.intuitive_tendency.getD (1/2))
  let c₄ := if listMax analytical_scores > 4/5 ∧ listMax intuitive_scores > 4/5
    then ["analytical_intuitive_tension"] else []
  c₁ ++ c₂ ++ c₃ ++ c₄

/-- `_generate_optimization_suggestions` (packaged copy). -/
def generate_optimization_suggestions (use_case : String)
    (hybrid_traits : BlendedTraits) : List String :=
  let s₁ :=
    if use_case = "leadership" then
      ["Focus on balancing analytical and intuitive decision-making",
       "Develop stakeholder communication strategies"]
    else if use_case = "innovation" then
      ["Leverage creative thinking while maintaining systematic approach",
       "Create structured ideation processes"]
    else if use_case = "problem_solving" then
      ["Develop frameworks that combine multiple thinking styles",
       "Practice switching between analytical and creative modes"]
    else []
  let s₂ :=
    if hybrid_traits.analytical_tendency > 7/10 ∧ hybrid_traits.creative_tendency > 7/10 then
      ["Create structured creativity sessions to balance both strengths"]
    else []
  let s₃ :=
    if hybrid_traits.decision_confidence < 2/5 then
      ["Develop confidence-building exercises for decision-making"]
    else []
  s₁ ++ s₂ ++ s₃

/-- Python exceptions raised by the embedded code. -/
inductive PyError where
  | valueError (msg : String)
  | attributeError (name : String)
deriving Repr, DecidableEq

/-- The resulting hybrid profile dict (time-derived `profile_id` /
`creation_timestamp` and the constant `version` / `profile_type` entries
omitted; the architecture/communication/decision sub-dicts are copies of the
dominant source and are not read by any claim). -/
structure HybridProfile where
  source_profiles : List (Option String)
  hybrid_weights : List ℚ
  use_case : String
  cognitive_traits : BlendedTraits
  hybrid_strengths : List String
  potential_conflicts : List String
  optimization_suggestions : List String
deriving Repr, DecidableEq

/-- The hybrid-profile dict assembled by the body of `create_hybrid_profile`
once both precondition checks have passed. -/
def mkHybrid (profiles : List SourceProfile) (weights : List ℚ)
    (use_case : String) : HybridProfile :=
  { source_profiles := profiles.map (·.profile_id)
    hybrid_weights := weights
    use_case := use_case
    cognitive_traits := blend_cognitive_traits profiles weights
    hybrid_strengths := identify_hybrid_strengths profiles
    potential_conflicts := identify_potential_conflicts profiles
    optimization_suggestions :=
      generate_optimization_suggestions use_case (blend_cognitive_traits profiles weights) }

/-- `create_hybrid_profile` of the packaged copy
`src/src/cognitive_profiling/cognitive_profiler.py`: both precondition checks
run before any blending; on failure a `ValueError` is raised and no partial
result is produced. -/
def create_hybrid_profile (profiles : List SourceProfile) (weights : List ℚ)
    (use_case : String) : Except PyError HybridProfile :=
  if profiles.length ≠ weights.length then
    .error (.valueError "Number of profiles must match number of weights")
  else if ¬ (|weights.sum - 1| ≤ 1/100) then
    .error (.valueError "Weights must sum to 1.0")
  else
    .ok (mkHybrid profiles weights use_case)

/-! ## The top-level module copy `src/cognitive_profiler.py`

Its `CognitiveProfileGenerator` class ends after `_blend_cognitive_traits`
(plus the helper methods listed below); in particular the methods
`create_hybrid_profile` invokes after blending the traits —
`_blend_thinking_architectures`, `_select_dominant_communication_style`,
`_blend_decision_making_profiles`, `_identify_hybrid_strengths`,
`_identify_potential_conflicts`, `_generate_optimization_suggestions` — are
not defined anywhere in that file, so Python attribute lookup on the first of
them raises `AttributeError`. -/

/-- The method names defined in class `CognitiveProfileGenerator` of
`src/cognitive_profiler.py`, transcribed from the file. -/
def toplevel_class_methods : List String :=
  ["__init__", "generate_comprehensive_profile", "_extract_cognitive_traits",
   "_analyze_communication_patterns", "_create_decision_making_profile",
   "_map_thinking_architecture", "_generate_cognitive_signature",
   "_identify_cognitive_strengths", "_identify_potential_biases",
   "_infer_learning_preferences", "_assess_hybridization_potential",
   "_identify_complementary_traits", "create_hybrid_profile",
   "_blend_cognitive_traits", "_calculate_flexibility_score",
   "_default_communication_style", "_default_decision_making_profile",
   "_generate_profile_id", "_calculate_confidence_score",
   "_assess_data_completeness", "_calculate_reliability_score",
   "_convert_risk_assessment_to_tolerance", "_assess_formality_level",
   "_infer_attention_pattern", "_infer_memory_organization_style",
   "_map_problem_solving_approach", "_assess_metacognitive_awareness",
   "_assess_cognitive_control", "_suggest_hybrid_roles"]

/-- Python attribute lookup `self.<name>` on the top-level class. -/
def toplevel_getattr (name : String) : Except PyError Unit :=
  if name ∈ toplevel_class_methods then .ok () else .error (.attributeError name)

/-- `create_hybrid_profile` of the top-level copy `src/cognitive_profiler.py`:
identical precondition checks and trait blend, then
`self._blend_thinking_architectures(profiles, weights)` — whose attribute
lookup is dispatched through `toplevel_getattr`.  The continuation after that
lookup is unreachable in this file (the method list above does not contain the
name); it is filled with the data available at the failure point only to keep
the function total. -/
def create_hybrid_profile_toplevel (profiles : List SourceProfile)
    (weights : List ℚ) (use_case : String) : Except PyError HybridProfile :=
  if profiles.length ≠ weights.length then
    .error (.valueError "Number of profiles must match number of weights")
  else if ¬ (|weights.sum - 1| ≤ 1/100) then
    .error (.valueError "Weights must sum to 1.0")
  else
    let hybrid_traits := blend_cognitive_traits profiles weights
    toplevel_getattr "_blend_thinking_architectures" >>= fun _ =>
      .ok
        { source_profiles := profiles.map (·.profile_id)
          hybrid_weights := weights
          use_case := use_case
          cognitive_traits := hybrid_traits
          hybrid_strengths := []
          potential_conflicts := []
          optimization_suggestions := [] }

/-! ## Helper lemmas -/

theorem le_foldl_max (xs : List ℚ) (a : ℚ) : a ≤ xs.foldl max a := by
  induction xs generalizing a with
  | nil => exact le_rfl
  | cons x t ih => exact le_trans (le_max_left a x) (ih (max a x))

theorem mem_le_foldl_max (xs : List ℚ) (a x : ℚ) (hx : x ∈ xs) :
    x ≤ xs.foldl max a := by
  induction xs generalizing a with
  | nil => cases hx
  | cons y t ih =>
    rw [List.foldl_cons]
    rcases List.mem_cons.mp hx with rfl | h
    · exact le_trans (le_max_right a x) (le_foldl_max t (max a x))
    · exact ih (max a y) h

theorem foldl_max_mem (xs : List ℚ) (a : ℚ) :
    xs.foldl max a = a ∨ xs.foldl max a ∈ xs := by
  induction xs generalizing a with
  | nil => exact Or.inl rfl
  | cons x t ih =>
    rcases ih (max a x) with h | h
    · rcases le_total a x with hax | hxa
      · exact Or.inr (List.mem_cons.mpr (Or.inl (h.trans (max_eq_right hax))))
      · exact Or.inl (h.trans (max_eq_left hxa))
    · exact Or.inr (List.mem_cons.mpr (Or.inr h))

theorem le_listMax {l : List ℚ} {x : ℚ} (hx : x ∈ l) : x ≤ listMax l := by
  cases l with
  | nil => cases hx
  | cons y t =>
    rcases List.mem_cons.mp hx with rfl | h
    · exact le_foldl_max t x
    · exact mem_le_foldl_max t y x h

theorem listMax_mem {l : List ℚ} (hl : l ≠ []) : listMax l ∈ l := by
  cases l with
  | nil => exact absurd rfl hl
  | cons y t =>
    rcases foldl_max_mem t y with h | h
    · exact List.mem_cons.mpr (Or.inl h)
    · exact List.mem_cons.mpr (Or.inr h)

theorem listMax_gt_iff {l : List ℚ} (hl : l ≠ []) (c : ℚ) :
    c < listMax l ↔ ∃ x ∈ l, c < x := by
  constructor
  · intro h
    exact ⟨listMax l, listMax_mem hl, h⟩
  · rintro ⟨x, hx, hcx⟩
    exact lt_of_lt_of_le hcx (le_listMax hx)

theorem getD_lt_indexOf_ne (l : List ℚ) (a : ℚ) (j : Nat)
    (hj : j < l.indexOf a) : l.getD j 0 ≠ a := by
  induction l generalizing j with
  | nil => simp [List.indexOf] at hj
  | cons x t ih =>
    by_cases hxa : x = a
    · rw [List.indexOf_cons_eq t hxa] at hj
      exact absurd hj (Nat.not_lt_zero j)
    · rw [List.indexOf_cons_ne t hxa] at hj
      cases j with
      | zero => simpa using hxa
      | succ k =>
        have hk : k < t.indexOf a := Nat.lt_of_succ_lt_succ hj
        simpa using ih k hk

theorem dominantIndex_lt_length {l : List ℚ} (hl : l ≠ []) :
    dominantIndex l < l.length :=
  List.indexOf_lt_length.mpr (listMax_mem hl)

theorem getD_dominantIndex {l : List ℚ} (hl : l ≠ []) :
    l.getD (dominantIndex l) 0 = listMax l := by
  have h := dominantIndex_lt_length hl
  rw [List.getD_eq_getElem _ _ h]
  exact List.getElem_indexOf h

theorem one_lt_dedup_length_iff (l : List String) :
    1 < l.dedup.length ↔ ∃ x ∈ l, ∃ y ∈ l, x ≠ y := by
  constructor
  · intro h
    rcases hld : l.dedup with _ | ⟨x, t⟩
    · rw [hld] at h; simp at h
    · rcases t with _ | ⟨y, t'⟩
      · rw [hld] at h; simp at h
      · have hx : x ∈ l.dedup := by rw [hld]; exact List.mem_cons_self x _
        have hy : y ∈ l.dedup := by
          rw [hld]; exact List.mem_cons.mpr (Or.inr (List.mem_cons_self y t'))
        have hnd := List.nodup_dedup l
        rw [hld] at hnd
        refine ⟨x, List.mem_dedup.mp hx, y, List.mem_dedup.mp hy, ?_⟩
        intro hxy
        exact (List.nodup_cons.mp hnd).1 (hxy ▸ List.mem_cons_self y t')
  · rintro ⟨x, hx, y, hy, hxy⟩
    by_contra hle
    push_neg at hle
    rcases hld : l.dedup with _ | ⟨z, t⟩
    · have hx' := List.mem_dedup.mpr hx
      rw [hld] at hx'
      simp at hx'
    · rcases t with _ | ⟨w, t'⟩
      · have hx' := List.mem_dedup.mpr hx
        have hy' := List.mem_dedup.mpr hy
        rw [hld] at hx' hy'
        simp at hx' hy'
        exact hxy (hx'.trans hy'.symm)
      · rw [hld] at hle
        simp at hle

theorem mem_if_singleton (b : Prop) [Decidable b] (x s : String) :
    (s ∈ if b then [x] else []) ↔ b ∧ s = x := by
  split_ifs with hb
  · simp [hb]
  · simp [hb]

theorem count_flatten_eq_countP (ps : List SourceProfile) (s : String)
    (hnd : ∀ p ∈ ps, p.strengths.Nodup) :
    ((ps.map (·.strengths)).flatten).count s
      = ps.countP (fun p => s ∈ p.strengths) := by
  induction ps with
  | nil => rfl
  | cons p t ih =>
    have hp : p.strengths.Nodup := hnd p (List.mem_cons_self p t)
    have ht : ∀ q ∈ t, q.strengths.Nodup :=
      fun q hq => hnd q (List.mem_cons.mpr (Or.inr hq))
    simp only [List.map_cons, List.flatten_cons, List.count_append, List.countP_cons, ih ht]
    by_cases hmem : s ∈ p.strengths
    · rw [List.count_eq_one_of_mem hp hmem]
      simp [hmem]
      omega
    · rw [List.count_eq_zero.mpr hmem]
      simp [hmem]

theorem zip_weighted_sum (f : SourceProfile → ℚ) :
    ∀ (ps : List SourceProfile) (ws : List ℚ), ps.length = ws.length →
      ((ps.zip ws).map (fun pw => f pw.1 * pw.2)).sum
        = ∑ j in Finset.range ps.length,
            ws.getD j 0 * f (ps.getD j SourceProfile.empty)
  | [], [], _ => by simp
  | [], w :: wt, h => by simp at h
  | p :: pt, [], h => by simp at h
  | p :: pt, w :: wt, h => by
    have hlen : pt.length = wt.length := by simpa using h
    have ih := zip_weighted_sum f pt wt hlen
    simp only [List.zip_cons_cons, List.map_cons, List.sum_cons, List.length_cons]
    rw [Finset.sum_range_succ']
    simp only [List.getD_cons_succ, List.getD_cons_zero]
    rw [ih]
    ring

theorem pick_primary_style_eq (a i c : ℚ) :
    pick_primary_style a i c =
      if i ≤ a ∧ c ≤ a then "analytical"
      else if a ≤ i ∧ c ≤ i then "intuitive"
      else "creative" := by
  unfold pick_primary_style
  by_cases h₁ : i ≤ a ∧ c ≤ a
  · have hm : max (max a i) c = a := by rw [max_eq_left h₁.1, max_eq_left h₁.2]
    simp [hm, h₁]
  · by_cases h₂ : a ≤ i ∧ c ≤ i
    · have hm : max (max a i) c = i := by rw [max_eq_right h₂.1, max_eq_left h₂.2]
      have hia : i ≠ a := fun he => h₁ ⟨le_of_eq he, he ▸ h₂.2⟩
      simp [hm, hia, h₁, h₂]
    · have hic : i ≤ c := by
        by_contra hci
        push_neg at hci
        rcases le_total a i with hai | hia
        · exact h₂ ⟨hai, le_of_lt hci⟩
        · exact h₁ ⟨hia, le_of_lt (lt_of_lt_of_le hci hia)⟩
      have hac : a ≤ c := by
        by_contra hca
        push_neg at hca
        exact h₁ ⟨le_of_lt (lt_of_le_of_lt hic hca), le_of_lt hca⟩
      have hm : max (max a i) c = c := max_eq_right (max_le hac hic)
      have hca : c ≠ a := fun he => h₁ ⟨le_trans hic (le_of_eq he), le_of_eq he⟩
      have hci : c ≠ i := fun he => h₂ ⟨le_trans hac (le_of_eq he), le_of_eq he⟩
      simp [hm, hca, hci, h₁, h₂]

theorem string_data_append (s t : String) : (s ++ t).data = s.data ++ t.data := rfl

theorem head_append_enhanced (t : String) :
    ("enhanced_" ++ t).data.head? = some 'e' := by
  rw [string_data_append]
  rfl

theorem ne_enhanced_of_head {s : String} (hh : s.data.head? ≠ some 'e') :
    ∀ t, s ≠ "enhanced_" ++ t := by
  intro t h
  apply hh
  rw [h]
  exact head_append_enhanced t

theorem versatility_ne_enhanced (t : String) :
    "cognitive_versatility" ≠ "enhanced_" ++ t := by
  intro h
  have hd := congrArg String.data h
  rw [string_data_append] at hd
  simp at hd

theorem adaptive_ne_enhanced (t : String) :
    "adaptive_thinking" ≠ "enhanced_" ++ t := by
  intro h
  have hd := congrArg String.data h
  rw [string_data_append] at hd
  simp at hd

theorem weights_ne_nil_of_sum_close {ws : List ℚ} (h : |ws.sum - 1| ≤ 1/100) :
    ws ≠ [] := by
  intro he
  subst he
  norm_num at h

theorem create_hybrid_profile_ok_iff {ps : List SourceProfile} {ws : List ℚ}
    {u : String} {hp : HybridProfile} :
    create_hybrid_profile ps ws u = .ok hp ↔
      ps.length = ws.length ∧ |ws.sum - 1| ≤ 1/100 ∧ hp = mkHybrid ps ws u := by
  unfold create_hybrid_profile
  by_cases h₁ : ps.length = ws.length
  · rw [if_neg (not_not_intro h₁)]
    by_cases h₂ : |ws.sum - 1| ≤ 1/100
    · rw [if_neg (not_not_intro h₂)]
      simp only [h₁, true_and, Except.ok.injEq, eq_comm]
      refine ⟨fun he => ⟨?_, he⟩, fun he => he.2⟩
      simpa using h₂
    · rw [if_pos h₂]
      simp only [h₁, true_and]
      constructor
      · intro he
        cases he
      · rintro ⟨hle, -⟩
        exact absurd (by simpa using hle) h₂
  · rw [if_pos h₁]
    simp [h₁]

/-! ## Claim theorems -/

/-- C1: both blender preconditions are checked before any computation: a
profile/weight count mismatch raises the count-mismatch `ValueError`; a weight
sum farther than 0.01 from 1 raises `ValueError "Weights must sum to 1.0"`
(in particular `sum(weights) = 0.95` fails); `sum(weights) = 1.0` exactly
passes both checks and the call succeeds; on failure the result is the bare
error — no partial hybrid profile is produced. -/
theorem hybrid_blend_preconditions (ps : List SourceProfile) (ws : List ℚ)
    (u : String) :
    (ps.length ≠ ws.length →
      create_hybrid_profile ps ws u =
        .error (.valueError "Number of profiles must match number of weights")) ∧
    (ps.length = ws.length → 1/100 < |ws.sum - 1| →
      create_hybrid_profile ps ws u =
        .error (.valueError "Weights must sum to 1.0")) ∧
    (ps.length = ws.length → ws.sum = 95/100 →
      create_hybrid_profile ps ws u =
        .error (.valueError "Weights must sum to 1.0")) ∧
    (ps.length = ws.length → ws.sum = 1 →
      ∃ hp, create_hybrid_profile ps ws u = .ok hp) := by
  refine ⟨?_, ?_, ?_, ?_⟩
  · intro h
    unfold create_hybrid_profile
    rw [if_pos h]
  · intro h₁ h₂
    unfold create_hybrid_profile
    rw [if_neg (not_not_intro h₁), if_pos (not_le.mpr h₂)]
  · intro h₁ h₂
    unfold create_hybrid_profile
    have hlt : ¬(|ws.sum - 1| ≤ 1/100) := by
      rw [h₂, show (95 : ℚ)/100 - 1 = -(1/20) by norm_num, abs_neg,
        abs_of_pos (by norm_num : (0 : ℚ) < 1/20)]
      norm_num
    rw [if_neg (not_not_intro h₁), if_pos hlt]
  · intro h₁ h₂
    have hle : |ws.sum - 1| ≤ 1/100 := by rw [h₂]; norm_num
    exact ⟨_, create_hybrid_profile_ok_iff.mpr ⟨h₁, hle, rfl⟩⟩

/-- Witness for C1: with one source profile, weight list `[0.95]` is rejected
with the weight-sum `ValueError`, weight list `[1.0]` passes the checks, and a
length mismatch is rejected with the count-mismatch `ValueError`. -/
theorem hybrid_blend_preconditions_witness :
    create_hybrid_profile [SourceProfile.empty] [95/100] "advisor" =
        .error (.valueError "Weights must sum to 1.0") ∧
    (∃ hp, create_hybrid_profile [SourceProfile.empty] [1] "advisor" = .ok hp) ∧
    create_hybrid_profile [SourceProfile.empty] [] "advisor" =
        .error (.valueError "Number of profiles must match number of weights") := by
  refine ⟨?_, ?_, ?_⟩
  · exact (hybrid_blend_preconditions [SourceProfile.empty] [95/100] "advisor").2.2.1
      rfl (by simp)
  · exact (hybrid_blend_preconditions [SourceProfile.empty] [1] "advisor").2.2.2
      rfl (by simp)
  · exact (hybrid_blend_preconditions [SourceProfile.empty] [] "advisor").1 (by simp)

/-- C5 counterexample: the analytical keyword list of
`ChatBasedAssessment.__init__` has 23 entries, not 22, and a text containing
all of them reaches a count of 23 — so the claimed bound of 22 for the
analytical category indicator is violated. -/
theorem analytical_count_exceeds_22 :
    22 < count_pattern_matches
      "first second third next then therefore because analyze break down step by step systematic logical evidence data facts research study examine consider evaluate assess measure compare"
      analytical_patterns := by
  have h : count_pattern_matches
      "first second third next then therefore because analyze break down step by step systematic logical evidence data facts research study examine consider evaluate assess measure compare"
      analytical_patterns = 23 := by rfl
  rw [h]
  norm_num

/-- C5 amended: each category indicator is a presence count — every keyword
contributes at most 1, so the count is bounded by the keyword-list size —
and the list sizes are 23 (analytical), 17 (intuitive), 14 (creative),
15 (systematic). -/
theorem category_counts_presence_bounded (text : String) :
    count_pattern_matches text analytical_patterns ≤ 23 ∧
    count_pattern_matches text intuitive_patterns ≤ 17 ∧
    count_pattern_matches text creative_patterns ≤ 14 ∧
    count_pattern_matches text systematic_patterns ≤ 15 ∧
    ∀ patterns : List String, count_pattern_matches text patterns ≤ patterns.length := by
  have hgen : ∀ patterns : List String,
      count_pattern_matches text patterns ≤ patterns.length :=
    fun patterns => List.length_filter_le _ _
  exact ⟨hgen analytical_patterns, hgen intuitive_patterns, hgen creative_patterns,
    hgen systematic_patterns, hgen⟩

/-- C6: aggregation over zero collected responses returns the `None` sentinel
for both the personality and the problem-solving aggregator; the functions are
total (never raise) and produce no profile with fabricated averages. -/
theorem aggregators_empty_input_no_profile
    (prss qrss : List (List Analysis))
    (hp : prss.flatten = []) (hq : qrss.flatten = []) :
    generate_personality_profile prss = none ∧
    generate_problem_solving_profile qrss = none := by
  constructor
  · simp [generate_personality_profile, hp]
  · simp [generate_problem_solving_profile, hq]

/-- Witness for C6: the two aggregators on the empty response collection. -/
theorem aggregators_empty_input_no_profile_witness :
    generate_personality_profile [] = none ∧
    generate_problem_solving_profile [] = none :=
  aggregators_empty_input_no_profile [] [] rfl rfl

/-- C9: in the top-level module copy `src/cognitive_profiler.py`,
`create_hybrid_profile` never returns a hybrid profile on inputs satisfying
its preconditions: after blending the cognitive traits it looks up
`_blend_thinking_architectures`, which is not defined in that file's class,
so the call fails with a missing-attribute error. -/
theorem toplevel_create_hybrid_always_fails (ps : List SourceProfile)
    (ws : List ℚ) (u : String) (h₁ : ps.length = ws.length)
    (h₂ : |ws.sum - 1| ≤ 1/100) :
    create_hybrid_profile_toplevel ps ws u =
      .error (.attributeError "_blend_thinking_architectures") ∧
    ∀ hp, create_hybrid_profile_toplevel ps ws u ≠ .ok hp := by
  have hattr : toplevel_getattr "_blend_thinking_architectures" =
      .error (.attributeError "_blend_thinking_architectures") := by rfl
  have hmain : create_hybrid_profile_toplevel ps ws u =
      .error (.attributeError "_blend_thinking_architectures") := by
    unfold create_hybrid_profile_toplevel
    rw [if_neg (not_not_intro h₁), if_neg (not_not_intro h₂), hattr]
    rfl
  exact ⟨hmain, fun hp h => by rw [hmain] at h; cases h⟩

/-- Witness for C9: a valid single-profile call to the top-level copy fails
with the missing-attribute error. -/
theorem toplevel_create_hybrid_always_fails_witness :
    create_hybrid_profile_toplevel [SourceProfile.empty] [1] "clone" =
      .error (.attributeError "_blend_thinking_architectures") :=
  (toplevel_create_hybrid_always_fails [SourceProfile.empty] [1] "clone"
    rfl (by simp)).1

/-- C10: blending a single profile with weight 1 passes the preconditions and
reproduces its cognitive traits: each numeric trait equals the source value
(default 0.5 when absent) and each categorical trait equals the source value
(default "medium" when absent). -/
theorem blend_single_profile_identity (P : SourceProfile) (u : String) :
    ∃ hp, create_hybrid_profile [P] [1] u = .ok hp ∧
      hp.cognitive_traits.analytical_tendency
        = P.cognitive_traits.analytical_tendency.getD (1/2) ∧
      hp.cognitive_traits.intuitive_tendency
        = P.cognitive_traits.intuitive_tendency.getD (1/2) ∧
      hp.cognitive_traits.creative_tendency
        = P.cognitive_traits.creative_tendency.getD (1/2) ∧
      hp.cognitive_traits.systematic_tendency
        = P.cognitive_traits.systematic_tendency.getD (1/2) ∧
      hp.cognitive_traits.decision_confidence
        = P.cognitive_traits.decision_confidence.getD (1/2) ∧
      hp.cognitive_traits.cognitive_flexibility
        = P.cognitive_traits.cognitive_flexibility.getD (1/2) ∧
      hp.cognitive_traits.primary_thinking_style
        = P.cognitive_traits.primary_thinking_style.getD "medium" ∧
      hp.cognitive_traits.problem_solving_approach
        = P.cognitive_traits.problem_solving_approach.getD "medium" ∧
      hp.cognitive_traits.complexity_comfort
        = P.cognitive_traits.complexity_comfort.getD "medium" ∧
      hp.cognitive_traits.stakeholder_awareness
        = P.cognitive_traits.stakeholder_awareness.getD "medium" ∧
      hp.cognitive_traits.risk_assessment_style
        = P.cognitive_traits.risk_assessment_style.getD "medium" := by
  refine ⟨_, create_hybrid_profile_ok_iff.mpr ⟨rfl, by simp, rfl⟩, ?_⟩
  have hdom : dominantIndex [(1 : ℚ)] = 0 := rfl
  simp [mkHybrid, blend_cognitive_traits, blendNumeric, blendCategorical, hdom]

/-- C4 counterexample: an exact three-way tie of the analytical, intuitive and
creative means yields `"analytical"`, not `"balanced"` as claimed — the
selection compares `max_score` for equality against the three means in order,
so the `"balanced"` arm is unreachable. -/
theorem three_way_tie_yields_analytical :
    (generate_personality_profile [[tieAnalysis]]).map (fun p => p.primary_thinking_style)
      = some "analytical" ∧
    (generate_personality_profile [[tieAnalysis]]).map (fun p => p.primary_thinking_style)
      ≠ some "balanced" := by
  have h : (generate_personality_profile [[tieAnalysis]]).map
      (fun p => p.primary_thinking_style) = some "analytical" := by
    simp [generate_personality_profile, tieAnalysis, Analysis.zero, pick_primary_style]
  refine ⟨h, ?_⟩
  rw [h]
  simp

/-- C4 amended: `primary_thinking_style` is selected by comparing
`max(avg_analytical, avg_intuitive, avg_creative)` for equality against the
three means in the order analytical → intuitive → creative; the first mean
attaining the maximum wins, so an intuitive/creative exact tie exceeding the
analytical mean yields `"intuitive"`, an exact three-way tie yields
`"analytical"`, and the trailing `"balanced"` arm is unreachable. -/
theorem primary_style_first_max_rule (rss : List (List Analysis))
    (hne : rss.flatten ≠ []) :
    ∃ p, generate_personality_profile rss = some p ∧
      p.primary_thinking_style =
        (let n : ℚ := rss.flatten.length
         let avgA := ((rss.flatten.map (·.analytical_indicators)).sum : ℚ) / n
         let avgI := ((rss.flatten.map (·.intuitive_indicators)).sum : ℚ) / n
         let avgC := ((rss.flatten.map (·.creative_indicators)).sum : ℚ) / n
         if avgI ≤ avgA ∧ avgC ≤ avgA then "analytical"
         else if avgA ≤ avgI ∧ avgC ≤ avgI then "intuitive"
         else "creative") ∧
      p.primary_thinking_style ≠ "balanced" := by
  have hemp : ¬(rss.flatten.isEmpty = true) := by
    simpa [List.isEmpty_iff] using hne
  simp only [generate_personality_profile]
  rw [if_neg hemp]
  refine ⟨_, rfl, ?_, ?_⟩
  · exact pick_primary_style_eq _ _ _
  · show pick_primary_style _ _ _ ≠ "balanced"
    rw [pick_primary_style_eq]
    split_ifs <;> decide

/-- Witness for C4 amended: a single response with intuitive and creative
means tied at 2 and analytical mean 0 yields `"intuitive"`. -/
theorem primary_style_first_max_rule_witness :
    (generate_personality_profile [[icTieAnalysis]]).map
      (fun p => p.primary_thinking_style) = some "intuitive" := by
  obtain ⟨p, hp, hstyle, -⟩ := primary_style_first_max_rule [[icTieAnalysis]] (by decide)
  rw [hp, Option.map_some', hstyle]
  norm_num [icTieAnalysis, Analysis.zero]

/-- C2: for every blend call passing the preconditions, each of the six
numeric traits of the hybrid equals the sum over sources of `weight_i` times
that source's trait value, a source missing the trait contributing `0.5`
times its weight (default applied before weighting). -/
theorem numeric_traits_weighted_sum (ps : List SourceProfile) (ws : List ℚ)
    (u : String) (hp : HybridProfile)
    (h : create_hybrid_profile ps ws u = .ok hp) :
    hp.cognitive_traits.analytical_tendency
      = ∑ j in Finset.range ps.length, ws.getD j 0 *
          ((ps.getD j SourceProfile.empty).cognitive_traits.analytical_tendency.getD (1/2)) ∧
    hp.cognitive_traits.intuitive_tendency
      = ∑ j in Finset.range ps.length, ws.getD j 0 *
          ((ps.getD j SourceProfile.empty).cognitive_traits.intuitive_tendency.getD (1/2)) ∧
    hp.cognitive_traits.creative_tendency
      = ∑ j in Finset.range ps.length, ws.getD j 0 *
          ((ps.getD j SourceProfile.empty).cognitive_traits.creative_tendency.getD (1/2)) ∧
    hp.cognitive_traits.systematic_tendency
      = ∑ j in Finset.range ps.length, ws.getD j 0 *
          ((ps.getD j SourceProfile.empty).cognitive_traits.systematic_tendency.getD (1/2)) ∧
    hp.cognitive_traits.decision_confidence
      = ∑ j in Finset.range ps.length, ws.getD j 0 *
          ((ps.getD j SourceProfile.empty).cognitive_traits.decision_confidence.getD (1/2)) ∧
    hp.cognitive_traits.cognitive_flexibility
      = ∑ j in Finset.range ps.length, ws.getD j 0 *
          ((ps.getD j SourceProfile.empty).cognitive_traits.cognitive_flexibility.getD (1/2)) := by
  obtain ⟨hlen, hsum, hhp⟩ := create_hybrid_profile_ok_iff.mp h
  subst hhp
  refine ⟨?_, ?_, ?_, ?_, ?_, ?_⟩
  · exact zip_weighted_sum (fun p => p.cognitive_traits.analytical_tendency.getD (1/2)) ps ws hlen
  · exact zip_weighted_sum (fun p => p.cognitive_traits.intuitive_tendency.getD (1/2)) ps ws hlen
  · exact zip_weighted_sum (fun p => p.cognitive_traits.creative_tendency.getD (1/2)) ps ws hlen
  · exact zip_weighted_sum (fun p => p.cognitive_traits.systematic_tendency.getD (1/2)) ps ws hlen
  · exact zip_weighted_sum (fun p => p.cognitive_traits.decision_confidence.getD (1/2)) ps ws hlen
  · exact zip_weighted_sum (fun p => p.cognitive_traits.cognitive_flexibility.getD (1/2)) ps ws hlen

/-- Witness for C2: blending analytical tendencies 0.9 (weight 0.6) and 0.3
(weight 0.4) yields exactly 0.66. -/
theorem numeric_traits_weighted_sum_witness :
    (create_hybrid_profile [profileP1, profileP2] [6/10, 4/10] "review").map
      (fun hp => hp.cognitive_traits.analytical_tendency) = .ok (33/50) := by
  have hok : create_hybrid_profile [profileP1, profileP2] [6/10, 4/10] "review"
      = .ok (mkHybrid [profileP1, profileP2] [6/10, 4/10] "review") :=
    create_hybrid_profile_ok_iff.mpr ⟨rfl, by norm_num, rfl⟩
  have hval := (numeric_traits_weighted_sum [profileP1, profileP2] [6/10, 4/10]
    "review" _ hok).1
  rw [hok]
  simp only [Except.map]
  rw [hval]
  norm_num [Finset.sum_range_succ, profileP1, profileP2, SourceProfile.empty,
    CognitiveTraits.empty]

/-- C3: for every blend call passing the preconditions, all five categorical
traits of the hybrid come together from the single source profile of maximal
weight, ties resolved to the earliest index in caller-supplied order. -/
theorem categorical_traits_from_dominant (ps : List SourceProfile) (ws : List ℚ)
    (u : String) (hp : HybridProfile)
    (h : create_hybrid_profile ps ws u = .ok hp) :
    ∃ d, d < ps.length ∧
      (∀ j, j < ws.length → ws.getD j 0 ≤ ws.getD d 0) ∧
      (∀ j, j < d → ws.getD j 0 < ws.getD d 0) ∧
      hp.cognitive_traits.primary_thinking_style
        = ((ps.getD d SourceProfile.empty).cognitive_traits.primary_thinking_style).getD "medium" ∧
      hp.cognitive_traits.problem_solving_approach
        = ((ps.getD d SourceProfile.empty).cognitive_traits.problem_solving_approach).getD "medium" ∧
      hp.cognitive_traits.complexity_comfort
        = ((ps.getD d SourceProfile.empty).cognitive_traits.complexity_comfort).getD "medium" ∧
      hp.cognitive_traits.stakeholder_awareness
        = ((ps.getD d SourceProfile.empty).cognitive_traits.stakeholder_awareness).getD "medium" ∧
      hp.cognitive_traits.risk_assessment_style
        = ((ps.getD d SourceProfile.empty).cognitive_traits.risk_assessment_style).getD "medium" := by
  obtain ⟨hlen, hsum, hhp⟩ := create_hybrid_profile_ok_iff.mp h
  subst hhp
  have hwne : ws ≠ [] := weights_ne_nil_of_sum_close hsum
  have hdlt : dominantIndex ws < ws.length := dominantIndex_lt_length hwne
  have hdmax : ws.getD (dominantIndex ws) 0 = listMax ws := getD_dominantIndex hwne
  refine ⟨dominantIndex ws, by rw [hlen]; exact hdlt, ?_, ?_, rfl, rfl, rfl, rfl, rfl⟩
  · intro j hj
    rw [hdmax, List.getD_eq_getElem _ _ hj]
    exact le_listMax (ws.getElem_mem hj)
  · intro j hj
    have hjlen : j < ws.length := lt_trans hj hdlt
    have hne := getD_lt_indexOf_ne ws (listMax ws) j hj
    rw [hdmax]
    exact lt_of_le_of_ne
      (by rw [List.getD_eq_getElem _ _ hjlen]; exact le_listMax (ws.getElem_mem hjlen)) hne

/-- Witness for C3: P1 ("analytical", weight 0.7) dominates P2 ("creative",
weight 0.3); the hybrid's `primary_thinking_style` is `"analytical"`. -/
theorem categorical_traits_from_dominant_witness :
    (create_hybrid_profile [profileP1, profileP2] [7/10, 3/10] "strategy").map
      (fun hp => hp.cognitive_traits.primary_thinking_style) = .ok "analytical" := by
  have hok : create_hybrid_profile [profileP1, profileP2] [7/10, 3/10] "strategy"
      = .ok (mkHybrid [profileP1, profileP2] [7/10, 3/10] "strategy") :=
    create_hybrid_profile_ok_iff.mpr ⟨rfl, by norm_num, rfl⟩
  obtain ⟨d, hdlt, hdle, hdfirst, hstyle, -⟩ := categorical_traits_from_dominant
    [profileP1, profileP2] [7/10, 3/10] "strategy" _ hok
  have hd0 : d = 0 := by
    by_contra hne
    have hd2 : d < 2 := by simpa using hdlt
    have hd1 : d = 1 := by omega
    have hcontr := hdfirst 0 (by omega)
    rw [hd1] at hcontr
    simp only [List.getD_cons_succ, List.getD_cons_zero] at hcontr
    norm_num at hcontr
  rw [hok]
  simp only [Except.map]
  rw [hstyle, hd0]
  norm_num [profileP1, SourceProfile.empty, CognitiveTraits.empty]

/-- C7: for every blend call passing the preconditions, `potential_conflicts`
contains exactly the tags triggered by the four rules:
`conflicting_thinking_styles` iff the sources' primary thinking styles are not
all identical, `decision_speed_tension` iff both "quick" and "deliberate"
occur among the sources' decision speeds, `risk_tolerance_conflict` iff both
"high" and "low" occur among the risk tolerances, and
`analytical_intuitive_tension` iff some source's analytical tendency exceeds
0.8 and some (possibly different) source's intuitive tendency exceeds 0.8. -/
theorem potential_conflicts_exactly (ps : List SourceProfile) (ws : List ℚ)
    (u : String) (hp : HybridProfile)
    (h : create_hybrid_profile ps ws u = .ok hp) :
    ∀ s, s ∈ hp.potential_conflicts ↔
      ((s = "conflicting_thinking_styles" ∧
          ∃ p ∈ ps, ∃ q ∈ ps,
            p.cognitive_traits.primary_thinking_style.getD "balanced"
              ≠ q.cognitive_traits.primary_thinking_style.getD "balanced") ∨
       (s = "decision_speed_tension" ∧
          (∃ p ∈ ps, p.decision_making_profile.decision_speed.getD "medium" = "quick") ∧
          (∃ p ∈ ps, p.decision_making_profile.decision_speed.getD "medium" = "deliberate")) ∨
       (s = "risk_tolerance_conflict" ∧
          (∃ p ∈ ps, p.decision_making_profile.risk_tolerance.getD "medium" = "high") ∧
          (∃ p ∈ ps, p.decision_making_profile.risk_tolerance.getD "medium" = "low")) ∨
       (s = "analytical_intuitive_tension" ∧
          (∃ p ∈ ps, 4/5 < p.cognitive_traits.analytical_tendency.getD (1/2)) ∧
          (∃ p ∈ ps, 4/5 < p.cognitive_traits.intuitive_tendency.getD (1/2)))) := by
  obtain ⟨hlen, hsum, hhp⟩ := create_hybrid_profile_ok_iff.mp h
  subst hhp
  have hwne : ws ≠ [] := weights_ne_nil_of_sum_close hsum
  have hpne : ps ≠ [] := by
    intro he
    apply hwne
    subst he
    exact List.eq_nil_of_length_eq_zero hlen.symm
  have hmap : ∀ (f : SourceProfile → String) (v : String),
      v ∈ ps.map f ↔ ∃ p ∈ ps, f p = v := by
    intro f v
    simp [List.mem_map]
  have hstyles : (1 < (ps.map
        (fun p => p.cognitive_traits.primary_thinking_style.getD "balanced")).dedup.length)
      ↔ ∃ p ∈ ps, ∃ q ∈ ps,
          p.cognitive_traits.primary_thinking_style.getD "balanced"
            ≠ q.cognitive_traits.primary_thinking_style.getD "balanced" := by
    rw [one_lt_dedup_length_iff]
    constructor
    · rintro ⟨x, hx, y, hy, hxy⟩
      obtain ⟨p, hp', rfl⟩ := List.mem_map.mp hx
      obtain ⟨q, hq', rfl⟩ := List.mem_map.mp hy
      exact ⟨p, hp', q, hq', hxy⟩
    · rintro ⟨p, hp', q, hq', hne⟩
      exact ⟨_, List.mem_map_of_mem _ hp', _, List.mem_map_of_mem _ hq', hne⟩
  have hmaxiff : ∀ g : SourceProfile → ℚ,
      (4/5 < listMax (ps.map g)) ↔ ∃ p ∈ ps, 4/5 < g p := by
    intro g
    rw [listMax_gt_iff (fun hc => hpne (by simpa using hc)) (4/5)]
    constructor
    · rintro ⟨x, hx, hgt⟩
      obtain ⟨p, hp', rfl⟩ := List.mem_map.mp hx
      exact ⟨p, hp', hgt⟩
    · rintro ⟨p, hp', hgt⟩
      exact ⟨_, List.mem_map_of_mem _ hp', hgt⟩
  intro s
  show s ∈ identify_potential_conflicts ps ↔ _
  unfold identify_potential_conflicts
  simp only [List.mem_append, mem_if_singleton, gt_iff_lt]
  rw [hstyles, hmap, hmap, hmap, hmap, hmaxiff, hmaxiff]
  constructor
  · rintro (((⟨ha, rfl⟩ | ⟨hb, rfl⟩) | ⟨hc, rfl⟩) | ⟨hd, rfl⟩)
    · exact Or.inl ⟨rfl, ha⟩
    · exact Or.inr (Or.inl ⟨rfl, hb⟩)
    · exact Or.inr (Or.inr (Or.inl ⟨rfl, hc⟩))
    · exact Or.inr (Or.inr (Or.inr ⟨rfl, hd⟩))
  · rintro (⟨rfl, ha⟩ | ⟨rfl, hb⟩ | ⟨rfl, hc⟩ | ⟨rfl, hd⟩)
    · exact Or.inl (Or.inl (Or.inl ⟨ha, rfl⟩))
    · exact Or.inl (Or.inl (Or.inr ⟨hb, rfl⟩))
    · exact Or.inl (Or.inr ⟨hc, rfl⟩)
    · exact Or.inr ⟨hd, rfl⟩

/-- Witness for C7: three sources with decision speeds
["quick", "deliberate", "quick"] trigger `decision_speed_tension`. -/
theorem potential_conflicts_exactly_witness :
    (create_hybrid_profile [quickProfile, deliberateProfile, quickProfile]
        [1/2, 1/4, 1/4] "ops").map
      (fun hp => decide ("decision_speed_tension" ∈ hp.potential_conflicts))
      = .ok true := by
  have hok : create_hybrid_profile [quickProfile, deliberateProfile, quickProfile]
      [1/2, 1/4, 1/4] "ops"
      = .ok (mkHybrid [quickProfile, deliberateProfile, quickProfile]
          [1/2, 1/4, 1/4] "ops") :=
    create_hybrid_profile_ok_iff.mpr ⟨rfl, by norm_num, rfl⟩
  have hmem := (potential_conflicts_exactly _ _ _ _ hok "decision_speed_tension").mpr
    (Or.inr (Or.inl ⟨rfl,
      ⟨quickProfile, List.mem_cons_self _ _, by simp [quickProfile]⟩,
      ⟨deliberateProfile, List.mem_cons.mpr (Or.inr (List.mem_cons_self _ _)),
        by simp [deliberateProfile]⟩⟩))
  rw [hok]
  exact congrArg Except.ok (decide_eq_true hmem)

/-- C8: for every blend call passing the preconditions whose source strength
lists are duplicate-free and use plain strength tags (no `enhanced_` prefix
and not the reserved tags — true of every list `_identify_cognitive_strengths`
produces), `hybrid_strengths` is deduplicated; it always contains
`adaptive_thinking`; it contains `cognitive_versatility` iff there are more
than 2 sources; every strength occurring in at least two sources appears
exactly once as `enhanced_<strength>` with its unprefixed form absent; every
strength occurring in exactly one source appears unprefixed exactly once; and
nothing else appears beyond these tags and the (possibly renamed) source
strengths. -/
theorem hybrid_strengths_rules (ps : List SourceProfile) (ws : List ℚ)
    (u : String) (hp : HybridProfile)
    (h : create_hybrid_profile ps ws u = .ok hp)
    (hnd : ∀ p ∈ ps, p.strengths.Nodup)
    (hclean : ∀ p ∈ ps, ∀ s ∈ p.strengths,
      (∀ t, s ≠ "enhanced_" ++ t) ∧ s ≠ "adaptive_thinking" ∧
        s ≠ "cognitive_versatility") :
    hp.hybrid_strengths.Nodup ∧
    "adaptive_thinking" ∈ hp.hybrid_strengths ∧
    ("cognitive_versatility" ∈ hp.hybrid_strengths ↔ 2 < ps.length) ∧
    (∀ s, 2 ≤ ps.countP (fun p => s ∈ p.strengths) →
      ("enhanced_" ++ s) ∈ hp.hybrid_strengths ∧
      hp.hybrid_strengths.count ("enhanced_" ++ s) = 1 ∧
      s ∉ hp.hybrid_strengths) ∧
    (∀ s, ps.countP (fun p => s ∈ p.strengths) = 1 →
      s ∈ hp.hybrid_strengths ∧ hp.hybrid_strengths.count s = 1) ∧
    (∀ s, s ∈ hp.hybrid_strengths →
      s = "adaptive_thinking" ∨ s = "cognitive_versatility" ∨
      ∃ t, (∃ p ∈ ps, t ∈ p.strengths) ∧ (s = t ∨ s = "enhanced_" ++ t)) := by
  obtain ⟨hlen, hsum, hhp⟩ := create_hybrid_profile_ok_iff.mp h
  subst hhp
  have hmem_all : ∀ t, t ∈ (ps.map (·.strengths)).flatten ↔ ∃ p ∈ ps, t ∈ p.strengths := by
    intro t
    simp [List.mem_flatten]
  have hcount : ∀ t, ((ps.map (·.strengths)).flatten).count t
      = ps.countP (fun p => t ∈ p.strengths) :=
    fun t => count_flatten_eq_countP ps t hnd
  have hNodup : (identify_hybrid_strengths ps).Nodup := by
    simp only [identify_hybrid_strengths]
    exact List.nodup_dedup _
  have hout : ∀ s, s ∈ identify_hybrid_strengths ps ↔
      (∃ t ∈ (ps.map (·.strengths)).flatten,
        (if ((ps.map (·.strengths)).flatten).count t > 1 then "enhanced_" ++ t else t) = s) ∨
      (2 < ps.length ∧ s = "cognitive_versatility") ∨
      s = "adaptive_thinking" := by
    intro s
    simp only [identify_hybrid_strengths]
    by_cases h2 : ps.length > 2
    · rw [if_pos h2]
      simp only [List.mem_dedup, List.mem_append, List.mem_map, List.mem_singleton]
      constructor
      · rintro ((⟨t, ht, rfl⟩ | rfl) | rfl)
        · exact Or.inl ⟨t, ht, rfl⟩
        · exact Or.inr (Or.inl ⟨h2, rfl⟩)
        · exact Or.inr (Or.inr rfl)
      · rintro (⟨t, ht, rfl⟩ | ⟨-, rfl⟩ | rfl)
        · exact Or.inl (Or.inl ⟨t, ht, rfl⟩)
        · exact Or.inl (Or.inr rfl)
        · exact Or.inr rfl
    · rw [if_neg h2]
      simp only [List.mem_dedup, List.mem_append, List.mem_map, List.mem_singleton]
      constructor
      · rintro (⟨t, ht, rfl⟩ | rfl)
        · exact Or.inl ⟨t, ht, rfl⟩
        · exact Or.inr (Or.inr rfl)
      · rintro (⟨t, ht, rfl⟩ | ⟨hc, rfl⟩ | rfl)
        · exact Or.inl ⟨t, ht, rfl⟩
        · exact absurd hc h2
        · exact Or.inr rfl
  refine ⟨hNodup, (hout _).mpr (Or.inr (Or.inr rfl)), ⟨?_, ?_⟩, ?_, ?_, ?_⟩
  · intro hmem
    rcases (hout _).mp hmem with ⟨t, ht, hgt⟩ | ⟨h2, -⟩ | habs
    · obtain ⟨p, hp', htp⟩ := (hmem_all t).mp ht
      by_cases hc : ((ps.map (·.strengths)).flatten).count t > 1
      · rw [if_pos hc] at hgt
        exact absurd hgt.symm (versatility_ne_enhanced t)
      · rw [if_neg hc] at hgt
        exact absurd hgt ((hclean p hp' t htp).2.2)
    · exact h2
    · exact absurd habs (by decide)
  · intro h2
    exact (hout _).mpr (Or.inr (Or.inl ⟨h2, rfl⟩))
  · intro s hcnt
    have hpos : 0 < ps.countP (fun p => s ∈ p.strengths) := by omega
    obtain ⟨q, hq, hsq'⟩ := List.countP_pos_iff.mp hpos
    have hsq : s ∈ q.strengths := of_decide_eq_true hsq'
    have hs_all : s ∈ (ps.map (·.strengths)).flatten := (hmem_all s).mpr ⟨q, hq, hsq⟩
    have hgt1 : ((ps.map (·.strengths)).flatten).count s > 1 := by
      rw [hcount]
      omega
    have henh : ("enhanced_" ++ s) ∈ identify_hybrid_strengths ps :=
      (hout _).mpr (Or.inl ⟨s, hs_all, by rw [if_pos hgt1]⟩)
    refine ⟨henh, List.count_eq_one_of_mem hNodup henh, ?_⟩
    intro hmem_s
    rcases (hout _).mp hmem_s with ⟨t, ht, hgt⟩ | ⟨-, hsv⟩ | hsa
    · by_cases hc : ((ps.map (·.strengths)).flatten).count t > 1
      · rw [if_pos hc] at hgt
        exact (hclean q hq s hsq).1 t hgt.symm
      · rw [if_neg hc] at hgt
        rw [hgt] at hc
        exact hc hgt1
    · exact (hclean q hq s hsq).2.2 hsv
    · exact (hclean q hq s hsq).2.1 hsa
  · intro s hcnt
    have hpos : 0 < ps.countP (fun p => s ∈ p.strengths) := by omega
    obtain ⟨q, hq, hsq'⟩ := List.countP_pos_iff.mp hpos
    have hsq : s ∈ q.strengths := of_decide_eq_true hsq'
    have hs_all : s ∈ (ps.map (·.strengths)).flatten := (hmem_all s).mpr ⟨q, hq, hsq⟩
    have hngt : ¬(((ps.map (·.strengths)).flatten).count s > 1) := by
      rw [hcount]
      omega
    have hmem : s ∈ identify_hybrid_strengths ps :=
      (hout _).mpr (Or.inl ⟨s, hs_all, by rw [if_neg hngt]⟩)
    exact ⟨hmem, List.count_eq_one_of_mem hNodup hmem⟩
  · intro s hs
    rcases (hout _).mp hs with ⟨t, ht, hgt⟩ | ⟨-, rfl⟩ | rfl
    · obtain ⟨p, hp', htp⟩ := (hmem_all t).mp ht
      refine Or.inr (Or.inr ⟨t, ⟨p, hp', htp⟩, ?_⟩)
      by_cases hc : ((ps.map (·.strengths)).flatten).count t > 1
      · rw [if_pos hc] at hgt
        exact Or.inr hgt.symm
      · rw [if_neg hc] at hgt
        exact Or.inl hgt.symm
    · exact Or.inr (Or.inl rfl)
    · exact Or.inl rfl

/-- Witness for C8: sources with strengths
`["systematic_analysis", "pattern_recognition"]`, `["systematic_analysis"]`
and `["innovative_thinking"]`: the shared strength appears once as
`enhanced_systematic_analysis` (its plain form absent), the single-source
strength stays unprefixed, and with 3 sources both `adaptive_thinking` and
`cognitive_versatility` are present. -/
theorem hybrid_strengths_rules_witness :
    ("enhanced_systematic_analysis"
        ∈ (mkHybrid [strongAnalyst, strongAnalyst2, strongCreative]
            [1/2, 1/4, 1/4] "innovation").hybrid_strengths) ∧
    ("systematic_analysis"
        ∉ (mkHybrid [strongAnalyst, strongAnalyst2, strongCreative]
            [1/2, 1/4, 1/4] "innovation").hybrid_strengths) ∧
    ("pattern_recognition"
        ∈ (mkHybrid [strongAnalyst, strongAnalyst2, strongCreative]
            [1/2, 1/4, 1/4] "innovation").hybrid_strengths) ∧
    ("adaptive_thinking"
        ∈ (mkHybrid [strongAnalyst, strongAnalyst2, strongCreative]
            [1/2, 1/4, 1/4] "innovation").hybrid_strengths) ∧
    ("cognitive_versatility"
        ∈ (mkHybrid [strongAnalyst, strongAnalyst2, strongCreative]
            [1/2, 1/4, 1/4] "innovation").hybrid_strengths) := by
  have hok : create_hybrid_profile [strongAnalyst, strongAnalyst2, strongCreative]
      [1/2, 1/4, 1/4] "innovation"
      = .ok (mkHybrid [strongAnalyst, strongAnalyst2, strongCreative]
          [1/2, 1/4, 1/4] "innovation") :=
    create_hybrid_profile_ok_iff.mpr ⟨rfl, by norm_num, rfl⟩
  have hnd : ∀ p ∈ ([strongAnalyst, strongAnalyst2, strongCreative] :
      List SourceProfile), p.strengths.Nodup := by
    intro p hp
    fin_cases hp <;> decide
  have hclean : ∀ p ∈ ([strongAnalyst, strongAnalyst2, strongCreative] :
      List SourceProfile), ∀ s ∈ p.strengths,
      (∀ t, s ≠ "enhanced_" ++ t) ∧ s ≠ "adaptive_thinking" ∧
        s ≠ "cognitive_versatility" := by
    intro p hp s hs
    fin_cases hp <;> simp only [strongAnalyst, strongAnalyst2, strongCreative,
      List.mem_cons, List.mem_singleton, List.not_mem_nil, or_false] at hs
    · rcases hs with rfl | rfl
      · exact ⟨ne_enhanced_of_head (by decide), by decide, by decide⟩
      · exact ⟨ne_enhanced_of_head (by decide), by decide, by decide⟩
    · subst hs
      exact ⟨ne_enhanced_of_head (by decide), by decide, by decide⟩
    · subst hs
      exact ⟨ne_enhanced_of_head (by decide), by decide, by decide⟩
  obtain ⟨-, hadap, hvers, henh, hsingle, -⟩ := hybrid_strengths_rules
    [strongAnalyst, strongAnalyst2, strongCreative] [1/2, 1/4, 1/4] "innovation"
    _ hok hnd hclean
  obtain ⟨henh_mem, -, hnot⟩ := henh "systematic_analysis" (by decide)
  obtain ⟨hpat, -⟩ := hsingle "pattern_recognition" (by decide)
  exact ⟨henh_mem, hnot, hpat, hadap, hvers.mpr (by decide)⟩

end NeuralAgent
